import Mathlib

/-!
Shallow embedding of `src/config.py` of the UX AI audit system: a
configuration module that resolves settings from environment variables,
establishes a directory layout, declares static reference data (Nielsen
heuristics, personas, sentiment labels) and validates credentials.

The environment is modelled as a partial map `String → Option String`
(`os.environ` lookup after `load_dotenv`).  Python `int(...)` is modelled
by `pyInt`, which strips surrounding whitespace, accepts an optional sign
and then a non-empty digit run, and fails (`none`) otherwise — a failure
at module load is a raised `ValueError`, modelled by `Except.error`.
`validate_config` is modelled as a pure function returning both the lines
printed to standard output and the `Except` outcome (a raised
`ValueError` is `Except.error`, a normal return is `Except.ok ()`).
The filesystem touched by `Path.mkdir(parents=True, exist_ok=True)` is
modelled as a list of existing directories, each a list of path
components.
-/

/-- Substring helpers: `prefEq n h` holds when the char list `n` starts
the char list `h`. -/
def prefEq : List Char → List Char → Bool
  | [], _ => true
  | _ :: _, [] => false
  | a :: as, b :: bs => a == b && prefEq as bs

/-- `hasSub n h` holds when `n` occurs as a contiguous run inside `h`. -/
def hasSub (needle : List Char) : List Char → Bool
  | [] => prefEq needle []
  | c :: rest => prefEq needle (c :: rest) || hasSub needle rest

/-- `mentions msg key` : the string `key` occurs inside the string `msg`. -/
def mentions (msg key : String) : Bool :=
  hasSub key.toList msg.toList

/-- Accumulate a digit run into a natural number; fails on a non-digit. -/
def digitAcc : List Char → Nat → Option Nat
  | [], acc => some acc
  | c :: cs, acc =>
    if c.isDigit then digitAcc cs (acc * 10 + (c.toNat - 48)) else none

/-- Model of Python `int(s)`: strip surrounding whitespace, allow one
optional sign, then require a non-empty digit run. -/
def pyInt (s : String) : Option Int :=
  let cs := ((s.toList.dropWhile Char.isWhitespace).reverse.dropWhile
      Char.isWhitespace).reverse
  match cs with
  | [] => none
  | '-' :: rest =>
    match rest with
    | [] => none
    | _ :: _ => (digitAcc rest 0).map (fun n => -(n : Int))
  | '+' :: rest =>
    match rest with
    | [] => none
    | _ :: _ => (digitAcc rest 0).map (fun n => (n : Int))
  | rest => (digitAcc rest 0).map (fun n => (n : Int))

/-- `os.getenv(name, default)`. -/
def getenvD (env : String → Option String) (name df : String) : String :=
  match env name with
  | some v => v
  | none => df

/-- The resolved module-level settings of `config.py` (lines 32–59). -/
structure Config where
  OPENAI_API_KEY : Option String
  OPENAI_MODEL : String
  GEMINI_API_KEY : Option String
  GEMINI_MODEL : String
  DEEPSEEK_API_KEY : Option String
  DEEPSEEK_MODEL : String
  DEEPSEEK_BASE_URL : String
  MAX_STEPS : Int
  SCREENSHOT_TIMEOUT : Int
  DEFAULT_VIEWPORT_WIDTH : Int
  DEFAULT_VIEWPORT_HEIGHT : Int
  GRID_SIZE : Int
  GRID_COLOR : String
  NAVIGATION_TIMEOUT : Int
  PAGE_LOAD_WAIT : Int
  LOG_LEVEL : String

/-- `int(os.getenv(name, default))`: failure of the parse is a raised
`ValueError` at module load. -/
def intSetting (env : String → Option String) (name df : String) :
    Except String Int :=
  match pyInt (getenvD env name df) with
  | some v => Except.ok v
  | none =>
    Except.error ("invalid literal for int() with base 10: " ++
      getenvD env name df)

/-- Module load of `config.py`: resolve every setting; the first numeric
setting whose value fails to parse aborts the load with the raised error
(Python evaluates the `int(...)` lines top to bottom). -/
def loadConfig (env : String → Option String) : Except String Config :=
  match intSetting env "MAX_STEPS" "15" with
  | Except.error e => Except.error e
  | Except.ok maxSteps =>
  match intSetting env "SCREENSHOT_TIMEOUT" "30000" with
  | Except.error e => Except.error e
  | Except.ok screenshotTimeout =>
  match intSetting env "DEFAULT_VIEWPORT_WIDTH" "1920" with
  | Except.error e => Except.error e
  | Except.ok viewportWidth =>
  match intSetting env "DEFAULT_VIEWPORT_HEIGHT" "1080" with
  | Except.error e => Except.error e
  | Except.ok viewportHeight =>
  match intSetting env "GRID_SIZE" "100" with
  | Except.error e => Except.error e
  | Except.ok gridSize =>
  match intSetting env "NAVIGATION_TIMEOUT" "30000" with
  | Except.error e => Except.error e
  | Except.ok navigationTimeout =>
  match intSetting env "PAGE_LOAD_WAIT" "2000" with
  | Except.error e => Except.error e
  | Except.ok pageLoadWait =>
  Except.ok
    { OPENAI_API_KEY := env "OPENAI_API_KEY"
      OPENAI_MODEL := getenvD env "OPENAI_MODEL" "gpt-5-mini"
      GEMINI_API_KEY := env "GEMINI_API_KEY"
      GEMINI_MODEL := getenvD env "GEMINI_MODEL" "gemini-1.5-pro"
      DEEPSEEK_API_KEY := env "DEEPSEEK_API_KEY"
      DEEPSEEK_MODEL := getenvD env "DEEPSEEK_MODEL" "deepseek-chat"
      DEEPSEEK_BASE_URL := getenvD env "DEEPSEEK_BASE_URL" "https://api.deepseek.com"
      MAX_STEPS := maxSteps
      SCREENSHOT_TIMEOUT := screenshotTimeout
      DEFAULT_VIEWPORT_WIDTH := viewportWidth
      DEFAULT_VIEWPORT_HEIGHT := viewportHeight
      GRID_SIZE := gridSize
      GRID_COLOR := getenvD env "GRID_COLOR" "rgba(255,0,0,0.3)"
      NAVIGATION_TIMEOUT := navigationTimeout
      PAGE_LOAD_WAIT := pageLoadWait
      LOG_LEVEL := getenvD env "LOG_LEVEL" "INFO" }

/-- Python truthiness of an optional string: `None` and `""` are falsy. -/
def truthy : Option String → Bool
  | none => false
  | some s => !(s == "")

/-- The error list accumulated by `validate_config` (line 187). -/
def configErrors (c : Config) : List String :=
  if truthy c.OPENAI_API_KEY then []
  else ["OPENAI_API_KEY is not set (required for primary LLM)"]

/-- The warning list accumulated by `validate_config` (lines 190–194),
in source order: Gemini first, then DeepSeek. -/
def configWarnings (c : Config) : List String :=
  (if truthy c.GEMINI_API_KEY then []
   else ["GEMINI_API_KEY is not set (optional fallback)"]) ++
  (if truthy c.DEEPSEEK_API_KEY then []
   else ["DEEPSEEK_API_KEY is not set (optional auxiliary LLM)"])

/-- Outcome of `validate_config`: the lines printed to standard output and
either a normal return (`ok ()`) or a raised `ValueError` with its
message (`error msg`). -/
structure ValidateOutput where
  printed : List String
  result : Except String Unit

/-- `validate_config()` (lines 182–200): print the joined warnings when
the warning list is non-empty, then raise when the error list is
non-empty, else return. -/
def validate_config (c : Config) : ValidateOutput :=
  { printed :=
      if configWarnings c = [] then []
      else ["⚠ Warnings: " ++ String.intercalate ", " (configWarnings c)]
    result :=
      if configErrors c = [] then Except.ok ()
      else Except.error ("Configuration errors: " ++
        String.intercalate ", " (configErrors c)) }

/-- `NIELSEN_HEURISTICS` (lines 73–84). -/
def NIELSEN_HEURISTICS : List String :=
  [ "Visibility of system status",
    "Match between system and the real world",
    "User control and freedom",
    "Consistency and standards",
    "Error prevention",
    "Recognition rather than recall",
    "Flexibility and efficiency of use",
    "Aesthetic and minimalist design",
    "Help users recognize, diagnose, and recover from errors",
    "Help and documentation" ]

/-- A persona record of `PERSONAS` (lines 87–172). -/
structure Persona where
  name : String
  name_en : String
  age : Nat
  tech_level : String
  characteristics : List String
  goals : List String
  pain_points : List String
  devices : List String
  time_pressure : String
  system_prompt : String

/-- `PERSONAS` (lines 87–172), as an association list preserving the
Python dict insertion order. -/
def PERSONAS : List (String × Persona) :=
  [ ("student",
     { name := "Студент"
       name_en := "Student"
       age := 20
       tech_level := "высокий"
       characteristics :=
         [ "Активный пользователь мобильных устройств",
           "Многозадачность и быстрое переключение между разделами",
           "Ограниченное время между парами",
           "Привычка к современным UI паттернам (свайпы, жесты)" ]
       goals :=
         [ "Быстро найти расписание занятий",
           "Скачать учебные материалы",
           "Сдать домашнее задание онлайн",
           "Проверить оценки и зачетку",
           "Найти контакты преподавателя" ]
       pain_points :=
         [ "Долгая загрузка на мобильном интернете",
           "Непонятная навигация в личном кабинете",
           "Мелкий текст на мобильных",
           "Отсутствие push-уведомлений" ]
       devices := ["mobile", "tablet", "desktop"]
       time_pressure := "высокое"
       system_prompt := "Ты студент, 20 лет. Ты опытный пользователь интернета, активно используешь смартфон. У тебя мало времени между парами, поэтому тебе нужно быстро найти нужную информацию. Ты ожидаешь, что интерфейс будет интуитивным и современным, как в популярных приложениях." }),
    ("applicant",
     { name := "Абитуриент"
       name_en := "Applicant"
       age := 17
       tech_level := "средний"
       characteristics :=
         [ "Первый раз на сайте университета",
           "Стресс от выбора будущей профессии",
           "Часто заходит вместе с родителями",
           "Сравнивает несколько университетов" ]
       goals :=
         [ "Узнать проходные баллы на программу",
           "Посмотреть список вступительных экзаменов",
           "Найти информацию о стоимости обучения",
           "Понять процесс подачи документов",
           "Найти дни открытых дверей" ]
       pain_points :=
         [ "Слишком много непонятных терминов",
           "Информация раскидана по разным разделам",
           "Нет четкой инструкции \x27как поступить\x27",
           "Устаревшие данные (прошлогодние проходные баллы)" ]
       devices := ["mobile", "desktop"]
       time_pressure := "среднее"
       system_prompt := "Ты абитуриент, 17 лет, выбираешь учебное заведение. Ты впервые на этом сайте и немного волнуешься. Тебе нужна понятная информация о поступлении без сложных терминов. Ты будешь сравнивать эту информацию с другими вариантами." }),
    ("teacher",
     { name := "Преподаватель"
       name_en := "Teacher"
       age := 45
       tech_level := "средний"
       characteristics :=
         [ "Использует компьютер в основном для работы",
           "Ценит стабильность и привычные паттерны",
           "Много административной работы",
           "Может работать с планшета в аудитории" ]
       goals :=
         [ "Загрузить оценки студентов",
           "Опубликовать учебные материалы",
           "Посмотреть список студентов в группе",
           "Забронировать аудиторию",
           "Согласовать расписание консультаций" ]
       pain_points :=
         [ "Слишком много кликов для простых действий",
           "Непонятная система загрузки файлов",
           "Нет возможности массовых операций",
           "Интерфейс не адаптирован под планшет" ]
       devices := ["desktop", "tablet"]
       time_pressure := "низкое"
       system_prompt := "Ты преподаватель, 45 лет. Ты используешь сайт регулярно для работы со студентами и публикации материалов. Ты ценишь эффективность и не любишь, когда интерфейс меняется без причины. Ты хочешь выполнять задачи быстро и без лишних кликов." }) ]

/-- `SENTIMENT_LABELS` (lines 175–179). -/
def SENTIMENT_LABELS : List (String × Int) :=
  [("POSITIVE", 1), ("NEUTRAL", 0), ("NEGATIVE", -1)]

/-! Filesystem model for the directory-establishment step (lines 13–22).
A directory is a list of path components relative to the filesystem
root; the state is the list of directories that exist. -/

/-- `ROOT_DIR / "data"` (line 14). -/
def dataDir (root : List String) : List String := root ++ ["data"]

/-- `SCREENSHOTS_DIR = DATA_DIR / "screenshots"` (line 15). -/
def screenshotsDir (root : List String) : List String :=
  dataDir root ++ ["screenshots"]

/-- `REPORTS_DIR = DATA_DIR / "reports"` (line 16). -/
def reportsDir (root : List String) : List String :=
  dataDir root ++ ["reports"]

/-- `LOGS_DIR = ROOT_DIR / "logs"` (line 17). -/
def logsDir (root : List String) : List String := root ++ ["logs"]

/-- Record a single directory as existing (a successful `mkdir`);
creating an already-existing one changes nothing. -/
def addDir (fs : List (List String)) (d : List String) :
    List (List String) :=
  if d ∈ fs then fs else fs ++ [d]

/-- `Path.mkdir(parents=True, exist_ok=True)`: a no-op when the target
already exists; otherwise every missing ancestor is created, then the
target itself. -/
def mkdirP (fs : List (List String)) (p : List String) :
    List (List String) :=
  if p ∈ fs then fs else p.inits.foldl addDir fs

/-- The directory-establishment step (lines 20–22): the three `mkdir`
calls in source order. -/
def establishDirs (root : List String) (fs : List (List String)) :
    List (List String) :=
  mkdirP (mkdirP (mkdirP fs (screenshotsDir root)) (reportsDir root))
    (logsDir root)

/-! Theorems. -/

/-- A concrete configuration, with all defaults, whose three credential
fields are the given ones; used to instantiate the theorems below. -/
def cfgOf (o g d : Option String) : Config :=
  { OPENAI_API_KEY := o
    OPENAI_MODEL := "gpt-5-mini"
    GEMINI_API_KEY := g
    GEMINI_MODEL := "gemini-1.5-pro"
    DEEPSEEK_API_KEY := d
    DEEPSEEK_MODEL := "deepseek-chat"
    DEEPSEEK_BASE_URL := "https://api.deepseek.com"
    MAX_STEPS := 15
    SCREENSHOT_TIMEOUT := 30000
    DEFAULT_VIEWPORT_WIDTH := 1920
    DEFAULT_VIEWPORT_HEIGHT := 1080
    GRID_SIZE := 100
    GRID_COLOR := "rgba(255,0,0,0.3)"
    NAVIGATION_TIMEOUT := 30000
    PAGE_LOAD_WAIT := 2000
    LOG_LEVEL := "INFO" }

/-- C1: `validate_config` raises an error whose message mentions
OPENAI_API_KEY exactly when the mandatory OPENAI_API_KEY setting is
absent (unset or empty, which the code's truthiness test `not
OPENAI_API_KEY` treats identically); when the key is present,
`validate_config` returns normally with no value, whatever the optional
credentials are. -/
theorem validate_error_iff_key_missing (c : Config) :
    ((∃ msg, (validate_config c).result = Except.error msg ∧
        mentions msg "OPENAI_API_KEY" = true) ↔
      truthy c.OPENAI_API_KEY = false) ∧
    (truthy c.OPENAI_API_KEY = true →
      (validate_config c).result = Except.ok ()) := by
  cases h : truthy c.OPENAI_API_KEY
  · refine ⟨⟨fun _ => rfl, fun _ =>
      ⟨"Configuration errors: OPENAI_API_KEY is not set (required for primary LLM)",
        ?_, by decide⟩⟩, fun hf => by cases hf⟩
    simp [validate_config, configErrors, h]
    decide
  · refine ⟨⟨?_, fun hf => by cases hf⟩, fun _ => ?_⟩
    · rintro ⟨msg, hmsg, -⟩
      have hok : (validate_config c).result = Except.ok () := by
        simp [validate_config, configErrors, h]
      rw [hok] at hmsg
      cases hmsg
    · simp [validate_config, configErrors, h]

/-- C1 witness: at a configuration with no keys the error is raised and
mentions OPENAI_API_KEY; at one with `OPENAI_API_KEY="sk-test"` the
validation returns normally. -/
theorem validate_error_iff_key_missing_witness :
    (∃ msg, (validate_config (cfgOf none none none)).result =
        Except.error msg ∧ mentions msg "OPENAI_API_KEY" = true) ∧
    (validate_config (cfgOf (some "sk-test") none none)).result =
      Except.ok () :=
  ⟨(validate_error_iff_key_missing (cfgOf none none none)).1.mpr (by decide),
   (validate_error_iff_key_missing
     (cfgOf (some "sk-test") none none)).2 (by decide)⟩

/-- C2: validation is never partial: with no OPENAI_API_KEY and no
GEMINI_API_KEY/DEEPSEEK_API_KEY, a single run of `validate_config` both
prints a warning line mentioning both optional keys and raises an error
mentioning OPENAI_API_KEY. -/
theorem validate_checks_all_keys (c : Config)
    (ho : c.OPENAI_API_KEY = none) (hg : c.GEMINI_API_KEY = none)
    (hd : c.DEEPSEEK_API_KEY = none) :
    (∃ line ∈ (validate_config c).printed,
      mentions line "GEMINI_API_KEY" = true ∧
      mentions line "DEEPSEEK_API_KEY" = true) ∧
    ∃ msg, (validate_config c).result = Except.error msg ∧
      mentions msg "OPENAI_API_KEY" = true := by
  constructor
  · refine ⟨"⚠ Warnings: GEMINI_API_KEY is not set (optional fallback), DEEPSEEK_API_KEY is not set (optional auxiliary LLM)",
      ?_, by decide, by decide⟩
    simp [validate_config, configWarnings, ho, hg, hd, truthy]
    decide
  · refine ⟨"Configuration errors: OPENAI_API_KEY is not set (required for primary LLM)",
      ?_, by decide⟩
    simp [validate_config, configErrors, ho, truthy]
    decide

/-- C2 witness: the conjunction at the all-absent configuration. -/
theorem validate_checks_all_keys_witness :
    (∃ line ∈ (validate_config (cfgOf none none none)).printed,
      mentions line "GEMINI_API_KEY" = true ∧
      mentions line "DEEPSEEK_API_KEY" = true) ∧
    ∃ msg, (validate_config (cfgOf none none none)).result =
        Except.error msg ∧ mentions msg "OPENAI_API_KEY" = true :=
  validate_checks_all_keys (cfgOf none none none) rfl rfl rfl

/-- C3: a missing optional credential is never fatal: whenever
OPENAI_API_KEY is present, `validate_config` returns normally, and when
both optional keys are additionally unset the accumulated warnings about
them are printed to standard output. -/
theorem optional_keys_never_fatal (c : Config)
    (ho : truthy c.OPENAI_API_KEY = true) :
    (validate_config c).result = Except.ok () ∧
    (c.GEMINI_API_KEY = none → c.DEEPSEEK_API_KEY = none →
      ∃ line ∈ (validate_config c).printed,
        mentions line "GEMINI_API_KEY" = true ∧
        mentions line "DEEPSEEK_API_KEY" = true) := by
  constructor
  · simp [validate_config, configErrors, ho]
  · intro hg hd
    refine ⟨"⚠ Warnings: GEMINI_API_KEY is not set (optional fallback), DEEPSEEK_API_KEY is not set (optional auxiliary LLM)",
      ?_, by decide, by decide⟩
    simp [validate_config, configWarnings, hg, hd, truthy]
    decide

/-- C3 witness: with `OPENAI_API_KEY="sk-test"` and nothing else set,
validation returns normally and the warning line is printed. -/
theorem optional_keys_never_fatal_witness :
    (validate_config (cfgOf (some "sk-test") none none)).result =
      Except.ok () ∧
    ∃ line ∈ (validate_config (cfgOf (some "sk-test") none none)).printed,
      mentions line "GEMINI_API_KEY" = true ∧
      mentions line "DEEPSEEK_API_KEY" = true := by
  have h := optional_keys_never_fatal (cfgOf (some "sk-test") none none)
    (by decide)
  exact ⟨h.1, h.2 rfl rfl⟩

/-- C6: the heuristics sequence has exactly 10 entries and equals the
full documented order, "Visibility of system status" first through
"Help and documentation" last, every middle entry included; it is a
fixed list definition, so repeated reads yield the same sequence. -/
theorem heuristics_fixed :
    NIELSEN_HEURISTICS.length = 10 ∧
    NIELSEN_HEURISTICS =
      [ "Visibility of system status",
        "Match between system and the real world",
        "User control and freedom",
        "Consistency and standards",
        "Error prevention",
        "Recognition rather than recall",
        "Flexibility and efficiency of use",
        "Aesthetic and minimalist design",
        "Help users recognize, diagnose, and recover from errors",
        "Help and documentation" ] ∧
    NIELSEN_HEURISTICS.head? = some "Visibility of system status" ∧
    NIELSEN_HEURISTICS.getLast? = some "Help and documentation" := by
  decide

/-- C7: the persona mapping has exactly the keys `student`, `applicant`,
`teacher`, in this order, and every persona's `goals`, `pain_points`,
`characteristics` and `devices` are non-empty. -/
theorem personas_shape :
    PERSONAS.map Prod.fst = ["student", "applicant", "teacher"] ∧
    ∀ p ∈ PERSONAS, p.2.goals ≠ [] ∧ p.2.pain_points ≠ [] ∧
      p.2.characteristics ≠ [] ∧ p.2.devices ≠ [] := by
  decide

/-- C9: `validate_config` treats an empty-string credential exactly like
an absent one: for each of the three keys, substituting `some ""` for
`none` leaves the whole outcome (printed lines and result) unchanged;
moreover an empty OPENAI_API_KEY raises the OPENAI_API_KEY error and an
empty GEMINI_API_KEY or DEEPSEEK_API_KEY triggers the corresponding
printed warning. -/
theorem empty_string_like_absent (c : Config) :
    validate_config { c with OPENAI_API_KEY := some "" } =
      validate_config { c with OPENAI_API_KEY := none } ∧
    validate_config { c with GEMINI_API_KEY := some "" } =
      validate_config { c with GEMINI_API_KEY := none } ∧
    validate_config { c with DEEPSEEK_API_KEY := some "" } =
      validate_config { c with DEEPSEEK_API_KEY := none } ∧
    (∃ msg, (validate_config { c with OPENAI_API_KEY := some "" }).result =
      Except.error msg ∧ mentions msg "OPENAI_API_KEY" = true) ∧
    (∃ line ∈ (validate_config { c with GEMINI_API_KEY := some "" }).printed,
      mentions line "GEMINI_API_KEY" = true) ∧
    (∃ line ∈ (validate_config { c with DEEPSEEK_API_KEY := some "" }).printed,
      mentions line "DEEPSEEK_API_KEY" = true) := by
  refine ⟨rfl, rfl, rfl, ?_, ?_, ?_⟩
  · refine ⟨"Configuration errors: OPENAI_API_KEY is not set (required for primary LLM)",
      ?_, by decide⟩
    simp [validate_config, configErrors, truthy]
    decide
  · have t0 : truthy (some "") = false := rfl
    cases hd : truthy c.DEEPSEEK_API_KEY
    · refine ⟨"⚠ Warnings: GEMINI_API_KEY is not set (optional fallback), DEEPSEEK_API_KEY is not set (optional auxiliary LLM)",
        ?_, by decide⟩
      simp [validate_config, configWarnings, t0, hd]
      decide
    · refine ⟨"⚠ Warnings: GEMINI_API_KEY is not set (optional fallback)",
        ?_, by decide⟩
      simp [validate_config, configWarnings, t0, hd]
      decide
  · have t0 : truthy (some "") = false := rfl
    cases hg : truthy c.GEMINI_API_KEY
    · refine ⟨"⚠ Warnings: GEMINI_API_KEY is not set (optional fallback), DEEPSEEK_API_KEY is not set (optional auxiliary LLM)",
        ?_, by decide⟩
      simp [validate_config, configWarnings, t0, hg]
      decide
    · refine ⟨"⚠ Warnings: DEEPSEEK_API_KEY is not set (optional auxiliary LLM)",
        ?_, by decide⟩
      simp [validate_config, configWarnings, t0, hg]
      decide

/-- Resolving with an unset variable yields the default. -/
lemma getenvD_none {env : String → Option String} {n d : String}
    (h : env n = none) : getenvD env n d = d := by
  simp [getenvD, h]

/-- Resolving with a set variable yields the provided value. -/
lemma getenvD_some {env : String → Option String} {n d s : String}
    (h : env n = some s) : getenvD env n d = s := by
  simp [getenvD, h]

/-- When every numeric setting parses, module load succeeds and yields
exactly the resolved record. -/
lemma loadConfig_ok (env : String → Option String)
    (v1 v2 v3 v4 v5 v6 v7 : Int)
    (h1 : pyInt (getenvD env "MAX_STEPS" "15") = some v1)
    (h2 : pyInt (getenvD env "SCREENSHOT_TIMEOUT" "30000") = some v2)
    (h3 : pyInt (getenvD env "DEFAULT_VIEWPORT_WIDTH" "1920") = some v3)
    (h4 : pyInt (getenvD env "DEFAULT_VIEWPORT_HEIGHT" "1080") = some v4)
    (h5 : pyInt (getenvD env "GRID_SIZE" "100") = some v5)
    (h6 : pyInt (getenvD env "NAVIGATION_TIMEOUT" "30000") = some v6)
    (h7 : pyInt (getenvD env "PAGE_LOAD_WAIT" "2000") = some v7) :
    loadConfig env = Except.ok
      { OPENAI_API_KEY := env "OPENAI_API_KEY"
        OPENAI_MODEL := getenvD env "OPENAI_MODEL" "gpt-5-mini"
        GEMINI_API_KEY := env "GEMINI_API_KEY"
        GEMINI_MODEL := getenvD env "GEMINI_MODEL" "gemini-1.5-pro"
        DEEPSEEK_API_KEY := env "DEEPSEEK_API_KEY"
        DEEPSEEK_MODEL := getenvD env "DEEPSEEK_MODEL" "deepseek-chat"
        DEEPSEEK_BASE_URL := getenvD env "DEEPSEEK_BASE_URL" "https://api.deepseek.com"
        MAX_STEPS := v1
        SCREENSHOT_TIMEOUT := v2
        DEFAULT_VIEWPORT_WIDTH := v3
        DEFAULT_VIEWPORT_HEIGHT := v4
        GRID_SIZE := v5
        GRID_COLOR := getenvD env "GRID_COLOR" "rgba(255,0,0,0.3)"
        NAVIGATION_TIMEOUT := v6
        PAGE_LOAD_WAIT := v7
        LOG_LEVEL := getenvD env "LOG_LEVEL" "INFO" } := by
  unfold loadConfig intSetting
  rw [h1, h2, h3, h4, h5, h6, h7]

/-- C4: every resolved setting follows the precedence "explicit
environment value, else documented default": whenever module load
succeeds (all numeric values parse, values `v1`–`v7`), the credential
settings equal the raw environment lookups, each string setting equals
the environment value when set and its documented default when unset,
and each numeric setting equals the integer its environment value parses
to when set and its documented default when unset. -/
theorem settings_follow_precedence (env : String → Option String)
    (v1 v2 v3 v4 v5 v6 v7 : Int)
    (h1 : pyInt (getenvD env "MAX_STEPS" "15") = some v1)
    (h2 : pyInt (getenvD env "SCREENSHOT_TIMEOUT" "30000") = some v2)
    (h3 : pyInt (getenvD env "DEFAULT_VIEWPORT_WIDTH" "1920") = some v3)
    (h4 : pyInt (getenvD env "DEFAULT_VIEWPORT_HEIGHT" "1080") = some v4)
    (h5 : pyInt (getenvD env "GRID_SIZE" "100") = some v5)
    (h6 : pyInt (getenvD env "NAVIGATION_TIMEOUT" "30000") = some v6)
    (h7 : pyInt (getenvD env "PAGE_LOAD_WAIT" "2000") = some v7) :
    ∃ c, loadConfig env = Except.ok c ∧
      c.OPENAI_API_KEY = env "OPENAI_API_KEY" ∧
      c.GEMINI_API_KEY = env "GEMINI_API_KEY" ∧
      c.DEEPSEEK_API_KEY = env "DEEPSEEK_API_KEY" ∧
      (env "OPENAI_MODEL" = none → c.OPENAI_MODEL = "gpt-5-mini") ∧
      (∀ s, env "OPENAI_MODEL" = some s → c.OPENAI_MODEL = s) ∧
      (env "GEMINI_MODEL" = none → c.GEMINI_MODEL = "gemini-1.5-pro") ∧
      (∀ s, env "GEMINI_MODEL" = some s → c.GEMINI_MODEL = s) ∧
      (env "DEEPSEEK_MODEL" = none → c.DEEPSEEK_MODEL = "deepseek-chat") ∧
      (∀ s, env "DEEPSEEK_MODEL" = some s → c.DEEPSEEK_MODEL = s) ∧
      (env "DEEPSEEK_BASE_URL" = none →
        c.DEEPSEEK_BASE_URL = "https://api.deepseek.com") ∧
      (∀ s, env "DEEPSEEK_BASE_URL" = some s → c.DEEPSEEK_BASE_URL = s) ∧
      (env "GRID_COLOR" = none → c.GRID_COLOR = "rgba(255,0,0,0.3)") ∧
      (∀ s, env "GRID_COLOR" = some s → c.GRID_COLOR = s) ∧
      (env "LOG_LEVEL" = none → c.LOG_LEVEL = "INFO") ∧
      (∀ s, env "LOG_LEVEL" = some s → c.LOG_LEVEL = s) ∧
      (env "MAX_STEPS" = none → c.MAX_STEPS = 15) ∧
      (∀ s v, env "MAX_STEPS" = some s → pyInt s = some v →
        c.MAX_STEPS = v) ∧
      (env "SCREENSHOT_TIMEOUT" = none → c.SCREENSHOT_TIMEOUT = 30000) ∧
      (∀ s v, env "SCREENSHOT_TIMEOUT" = some s → pyInt s = some v →
        c.SCREENSHOT_TIMEOUT = v) ∧
      (env "DEFAULT_VIEWPORT_WIDTH" = none →
        c.DEFAULT_VIEWPORT_WIDTH = 1920) ∧
      (∀ s v, env "DEFAULT_VIEWPORT_WIDTH" = some s → pyInt s = some v →
        c.DEFAULT_VIEWPORT_WIDTH = v) ∧
      (env "DEFAULT_VIEWPORT_HEIGHT" = none →
        c.DEFAULT_VIEWPORT_HEIGHT = 1080) ∧
      (∀ s v, env "DEFAULT_VIEWPORT_HEIGHT" = some s → pyInt s = some v →
        c.DEFAULT_VIEWPORT_HEIGHT = v) ∧
      (env "GRID_SIZE" = none → c.GRID_SIZE = 100) ∧
      (∀ s v, env "GRID_SIZE" = some s → pyInt s = some v →
        c.GRID_SIZE = v) ∧
      (env "NAVIGATION_TIMEOUT" = none → c.NAVIGATION_TIMEOUT = 30000) ∧
      (∀ s v, env "NAVIGATION_TIMEOUT" = some s → pyInt s = some v →
        c.NAVIGATION_TIMEOUT = v) ∧
      (env "PAGE_LOAD_WAIT" = none → c.PAGE_LOAD_WAIT = 2000) ∧
      (∀ s v, env "PAGE_LOAD_WAIT" = some s → pyInt s = some v →
        c.PAGE_LOAD_WAIT = v) := by
  refine ⟨_, loadConfig_ok env v1 v2 v3 v4 v5 v6 v7 h1 h2 h3 h4 h5 h6 h7,
    rfl, rfl, rfl,
    fun h => getenvD_none h, fun s hs => getenvD_some hs,
    fun h => getenvD_none h, fun s hs => getenvD_some hs,
    fun h => getenvD_none h, fun s hs => getenvD_some hs,
    fun h => getenvD_none h, fun s hs => getenvD_some hs,
    fun h => getenvD_none h, fun s hs => getenvD_some hs,
    fun h => getenvD_none h, fun s hs => getenvD_some hs,
    ?_, ?_, ?_, ?_, ?_, ?_, ?_, ?_, ?_, ?_, ?_, ?_, ?_, ?_⟩
  · intro h
    rw [getenvD_none h, show pyInt "15" = some 15 from by decide] at h1
    exact (Option.some.inj h1).symm
  · intro s v hs hv
    rw [getenvD_some hs, hv] at h1
    exact (Option.some.inj h1).symm
  · intro h
    rw [getenvD_none h, show pyInt "30000" = some 30000 from by decide] at h2
    exact (Option.some.inj h2).symm
  · intro s v hs hv
    rw [getenvD_some hs, hv] at h2
    exact (Option.some.inj h2).symm
  · intro h
    rw [getenvD_none h, show pyInt "1920" = some 1920 from by decide] at h3
    exact (Option.some.inj h3).symm
  · intro s v hs hv
    rw [getenvD_some hs, hv] at h3
    exact (Option.some.inj h3).symm
  · intro h
    rw [getenvD_none h, show pyInt "1080" = some 1080 from by decide] at h4
    exact (Option.some.inj h4).symm
  · intro s v hs hv
    rw [getenvD_some hs, hv] at h4
    exact (Option.some.inj h4).symm
  · intro h
    rw [getenvD_none h, show pyInt "100" = some 100 from by decide] at h5
    exact (Option.some.inj h5).symm
  · intro s v hs hv
    rw [getenvD_some hs, hv] at h5
    exact (Option.some.inj h5).symm
  · intro h
    rw [getenvD_none h, show pyInt "30000" = some 30000 from by decide] at h6
    exact (Option.some.inj h6).symm
  · intro s v hs hv
    rw [getenvD_some hs, hv] at h6
    exact (Option.some.inj h6).symm
  · intro h
    rw [getenvD_none h, show pyInt "2000" = some 2000 from by decide] at h7
    exact (Option.some.inj h7).symm
  · intro s v hs hv
    rw [getenvD_some hs, hv] at h7
    exact (Option.some.inj h7).symm

/-- C4 witness: with an empty environment the load succeeds and the
defaults are resolved exactly. -/
theorem settings_follow_precedence_witness :
    ∃ c, loadConfig (fun _ => none) = Except.ok c ∧
      c.MAX_STEPS = 15 ∧ c.OPENAI_MODEL = "gpt-5-mini" ∧
      c.SCREENSHOT_TIMEOUT = 30000 ∧ c.LOG_LEVEL = "INFO" := by
  obtain ⟨c, hok, -, -, -, hom, -, -, -, -, -, -, -, -, -, hll, -, hms, -,
      hst, -, -, -, -, -, -, -, -, -, -, -⟩ :=
    settings_follow_precedence (fun _ => none) 15 30000 1920 1080 100
      30000 2000 (by decide) (by decide) (by decide) (by decide)
      (by decide) (by decide) (by decide)
  exact ⟨c, hok, hms rfl, hom rfl, hst rfl, hll rfl⟩

/-- The environment of the C5 witness: `MAX_STEPS="abc"`, nothing else. -/
def envAbc : String → Option String :=
  fun n => if n = "MAX_STEPS" then some "abc" else none

/-- A numeric setting that resolved successfully had a parseable value. -/
lemma intSetting_ok_isSome {env : String → Option String} {n d : String}
    {v : Int} (h : intSetting env n d = Except.ok v) :
    (pyInt (getenvD env n d)).isSome = true := by
  unfold intSetting at h
  split at h
  · rename_i heq
    rw [heq]
    rfl
  · cases h

/-- When module load succeeds, every one of the seven numeric settings
had a value that parses as an integer. -/
lemma loadConfig_ok_parses (env : String → Option String) (c : Config)
    (h : loadConfig env = Except.ok c) :
    (pyInt (getenvD env "MAX_STEPS" "15")).isSome = true ∧
    (pyInt (getenvD env "SCREENSHOT_TIMEOUT" "30000")).isSome = true ∧
    (pyInt (getenvD env "DEFAULT_VIEWPORT_WIDTH" "1920")).isSome = true ∧
    (pyInt (getenvD env "DEFAULT_VIEWPORT_HEIGHT" "1080")).isSome = true ∧
    (pyInt (getenvD env "GRID_SIZE" "100")).isSome = true ∧
    (pyInt (getenvD env "NAVIGATION_TIMEOUT" "30000")).isSome = true ∧
    (pyInt (getenvD env "PAGE_LOAD_WAIT" "2000")).isSome = true := by
  unfold loadConfig at h
  repeat (split at h <;> try (cases h))
  refine ⟨?_, ?_, ?_, ?_, ?_, ?_, ?_⟩ <;>
    exact intSetting_ok_isSome (by assumption)

/-- C5: for every numeric setting — MAX_STEPS, SCREENSHOT_TIMEOUT,
DEFAULT_VIEWPORT_WIDTH, DEFAULT_VIEWPORT_HEIGHT, GRID_SIZE,
NAVIGATION_TIMEOUT or PAGE_LOAD_WAIT — an environment value that does
not parse as an integer makes module load fail with a raised startup
error: the value is neither silently ignored nor replaced by the
default, because a successful load would have required it to parse. -/
theorem malformed_numeric_fails_load (env : String → Option String)
    (name s : String)
    (hname : name = "MAX_STEPS" ∨ name = "SCREENSHOT_TIMEOUT" ∨
      name = "DEFAULT_VIEWPORT_WIDTH" ∨ name = "DEFAULT_VIEWPORT_HEIGHT" ∨
      name = "GRID_SIZE" ∨ name = "NAVIGATION_TIMEOUT" ∨
      name = "PAGE_LOAD_WAIT")
    (hset : env name = some s) (hbad : pyInt s = none) :
    ∃ msg, loadConfig env = Except.error msg := by
  cases hload : loadConfig env with
  | error e => exact ⟨e, rfl⟩
  | ok c =>
    exfalso
    obtain ⟨p1, p2, p3, p4, p5, p6, p7⟩ := loadConfig_ok_parses env c hload
    rcases hname with rfl | rfl | rfl | rfl | rfl | rfl | rfl
    · rw [getenvD_some hset, hbad] at p1
      exact absurd p1 (by decide)
    · rw [getenvD_some hset, hbad] at p2
      exact absurd p2 (by decide)
    · rw [getenvD_some hset, hbad] at p3
      exact absurd p3 (by decide)
    · rw [getenvD_some hset, hbad] at p4
      exact absurd p4 (by decide)
    · rw [getenvD_some hset, hbad] at p5
      exact absurd p5 (by decide)
    · rw [getenvD_some hset, hbad] at p6
      exact absurd p6 (by decide)
    · rw [getenvD_some hset, hbad] at p7
      exact absurd p7 (by decide)

/-- C5 witness: the load failure at the concrete environment
`MAX_STEPS="abc"`. -/
theorem malformed_numeric_fails_load_witness :
    ∃ msg, loadConfig envAbc = Except.error msg :=
  malformed_numeric_fails_load envAbc "MAX_STEPS" "abc" (Or.inl rfl) rfl
    (by decide)

/-- The environment of the C10 witness: a negative MAX_STEPS, a zero
SCREENSHOT_TIMEOUT and a present OPENAI_API_KEY. -/
def envNeg : String → Option String :=
  fun n =>
    if n = "MAX_STEPS" then some "-5"
    else if n = "SCREENSHOT_TIMEOUT" then some "0"
    else if n = "OPENAI_API_KEY" then some "sk-test"
    else none

/-- C10: no numeric setting is range-checked: whenever every numeric
environment value parses as an integer — with no constraint on its sign
or magnitude, so zero and negative values included — the load succeeds,
each numeric setting equals exactly the parsed integer, and
`validate_config` still returns normally provided OPENAI_API_KEY is
set. -/
theorem no_range_check (env : String → Option String)
    (v1 v2 v3 v4 v5 v6 v7 : Int)
    (h1 : pyInt (getenvD env "MAX_STEPS" "15") = some v1)
    (h2 : pyInt (getenvD env "SCREENSHOT_TIMEOUT" "30000") = some v2)
    (h3 : pyInt (getenvD env "DEFAULT_VIEWPORT_WIDTH" "1920") = some v3)
    (h4 : pyInt (getenvD env "DEFAULT_VIEWPORT_HEIGHT" "1080") = some v4)
    (h5 : pyInt (getenvD env "GRID_SIZE" "100") = some v5)
    (h6 : pyInt (getenvD env "NAVIGATION_TIMEOUT" "30000") = some v6)
    (h7 : pyInt (getenvD env "PAGE_LOAD_WAIT" "2000") = some v7)
    (ho : truthy (env "OPENAI_API_KEY") = true) :
    ∃ c, loadConfig env = Except.ok c ∧
      c.MAX_STEPS = v1 ∧ c.SCREENSHOT_TIMEOUT = v2 ∧
      c.DEFAULT_VIEWPORT_WIDTH = v3 ∧ c.DEFAULT_VIEWPORT_HEIGHT = v4 ∧
      c.GRID_SIZE = v5 ∧ c.NAVIGATION_TIMEOUT = v6 ∧
      c.PAGE_LOAD_WAIT = v7 ∧
      (validate_config c).result = Except.ok () := by
  refine ⟨_, loadConfig_ok env v1 v2 v3 v4 v5 v6 v7 h1 h2 h3 h4 h5 h6 h7,
    rfl, rfl, rfl, rfl, rfl, rfl, rfl, ?_⟩
  simp [validate_config, configErrors, ho]

/-- C10 witness: `MAX_STEPS="-5"` and `SCREENSHOT_TIMEOUT="0"` load
fine, resolve to −5 and 0, and validation still returns normally. -/
theorem no_range_check_witness :
    ∃ c, loadConfig envNeg = Except.ok c ∧
      c.MAX_STEPS = -5 ∧ c.SCREENSHOT_TIMEOUT = 0 ∧
      c.DEFAULT_VIEWPORT_WIDTH = 1920 ∧ c.DEFAULT_VIEWPORT_HEIGHT = 1080 ∧
      c.GRID_SIZE = 100 ∧ c.NAVIGATION_TIMEOUT = 30000 ∧
      c.PAGE_LOAD_WAIT = 2000 ∧
      (validate_config c).result = Except.ok () :=
  no_range_check envNeg (-5) 0 1920 1080 100 30000 2000 (by decide)
    (by decide) (by decide) (by decide) (by decide) (by decide)
    (by decide) (by decide)

/-- Membership after recording one directory. -/
lemma mem_addDir (fs : List (List String)) (d a : List String) :
    a ∈ addDir fs d ↔ a ∈ fs ∨ a = d := by
  unfold addDir
  split
  · constructor
    · exact Or.inl
    · rintro (h | rfl)
      · exact h
      · assumption
  · simp [List.mem_append]

/-- Existing directories survive a sequence of `addDir` steps. -/
lemma mem_foldl_addDir_of_mem {l : List (List String)}
    {fs : List (List String)} {a : List String} (h : a ∈ fs) :
    a ∈ l.foldl addDir fs := by
  induction l generalizing fs with
  | nil => exact h
  | cons b t ih => exact ih ((mem_addDir fs b a).mpr (Or.inl h))

/-- Every directory in the fold's list is present afterwards. -/
lemma mem_foldl_addDir_self {l : List (List String)}
    {fs : List (List String)} {a : List String} (h : a ∈ l) :
    a ∈ l.foldl addDir fs := by
  induction l generalizing fs with
  | nil => cases h
  | cons b t ih =>
    rw [List.foldl_cons]
    rcases List.mem_cons.mp h with rfl | hmem
    · exact mem_foldl_addDir_of_mem ((mem_addDir fs a a).mpr (Or.inr rfl))
    · exact ih hmem

/-- Recording directories that all already exist changes nothing. -/
lemma foldl_addDir_of_subset {l : List (List String)}
    {fs : List (List String)} (h : ∀ a ∈ l, a ∈ fs) :
    l.foldl addDir fs = fs := by
  induction l with
  | nil => rfl
  | cons b t ih =>
    have hb : addDir fs b = fs := by
      unfold addDir
      rw [if_pos (h b (List.mem_cons_self b t))]
    rw [List.foldl_cons, hb]
    exact ih fun a ha => h a (List.mem_cons_of_mem b ha)

/-- A list is one of its own initial segments. -/
lemma self_mem_inits (l : List String) : l ∈ l.inits :=
  (List.mem_inits l l).mpr ⟨[], List.append_nil l⟩

/-- The target of `mkdirP` exists afterwards. -/
lemma mem_mkdirP_self (fs : List (List String)) (p : List String) :
    p ∈ mkdirP fs p := by
  unfold mkdirP
  split
  · assumption
  · exact mem_foldl_addDir_self (self_mem_inits p)

/-- Existing directories survive `mkdirP`. -/
lemma mem_mkdirP_of_mem {fs : List (List String)} {p a : List String}
    (h : a ∈ fs) : a ∈ mkdirP fs p := by
  unfold mkdirP
  split
  · exact h
  · exact mem_foldl_addDir_of_mem h

/-- `mkdirP` on an existing directory is a no-op (`exist_ok=True`). -/
lemma mkdirP_of_mem {fs : List (List String)} {p : List String}
    (h : p ∈ fs) : mkdirP fs p = fs := by
  unfold mkdirP
  rw [if_pos h]

/-- When the target is missing, `mkdirP` also creates every ancestor
(`parents=True`). -/
lemma mem_mkdirP_ancestor {fs : List (List String)} {p q : List String}
    (hp : p ∉ fs) (hq : q ∈ p.inits) : q ∈ mkdirP fs p := by
  unfold mkdirP
  rw [if_neg hp]
  exact mem_foldl_addDir_self hq

/-- C8: directory establishment is idempotent: running it twice equals
running it once; the three declared directories exist afterwards; when
the screenshots directory is missing its parent `data` directory is also
created; and when all three directories already exist the run is a
no-op on the filesystem. -/
theorem establish_dirs_idempotent (root : List String)
    (fs : List (List String)) :
    establishDirs root (establishDirs root fs) = establishDirs root fs ∧
    screenshotsDir root ∈ establishDirs root fs ∧
    reportsDir root ∈ establishDirs root fs ∧
    logsDir root ∈ establishDirs root fs ∧
    (screenshotsDir root ∉ fs → dataDir root ∈ establishDirs root fs) ∧
    (screenshotsDir root ∈ fs → reportsDir root ∈ fs →
      logsDir root ∈ fs → establishDirs root fs = fs) := by
  have hs : screenshotsDir root ∈ establishDirs root fs :=
    mem_mkdirP_of_mem (mem_mkdirP_of_mem (mem_mkdirP_self fs _))
  have hr : reportsDir root ∈ establishDirs root fs :=
    mem_mkdirP_of_mem (mem_mkdirP_self _ _)
  have hl : logsDir root ∈ establishDirs root fs :=
    mem_mkdirP_self _ _
  refine ⟨?_, hs, hr, hl, ?_, ?_⟩
  · show mkdirP (mkdirP (mkdirP (establishDirs root fs) _) _) _ =
      establishDirs root fs
    rw [mkdirP_of_mem hs, mkdirP_of_mem hr, mkdirP_of_mem hl]
  · intro hmiss
    have hq : dataDir root ∈ (screenshotsDir root).inits :=
      (List.mem_inits _ _).mpr ⟨["screenshots"], rfl⟩
    exact mem_mkdirP_of_mem (mem_mkdirP_of_mem
      (mem_mkdirP_ancestor hmiss hq))
  · intro h1 h2 h3
    show mkdirP (mkdirP (mkdirP fs _) _) _ = fs
    rw [mkdirP_of_mem h1, mkdirP_of_mem h2, mkdirP_of_mem h3]

/-- The filesystem of the C8 witness: the three directories already
present. -/
def fsAll : List (List String) :=
  [screenshotsDir ["app"], reportsDir ["app"], logsDir ["app"]]

/-- C8 witness: idempotence and directory presence starting from an
empty filesystem, and the no-op case when the directories exist. -/
theorem establish_dirs_idempotent_witness :
    establishDirs ["app"] (establishDirs ["app"] []) =
      establishDirs ["app"] [] ∧
    screenshotsDir ["app"] ∈ establishDirs ["app"] [] ∧
    dataDir ["app"] ∈ establishDirs ["app"] [] ∧
    establishDirs ["app"] fsAll = fsAll :=
  ⟨(establish_dirs_idempotent ["app"] []).1,
   (establish_dirs_idempotent ["app"] []).2.1,
   (establish_dirs_idempotent ["app"] []).2.2.2.2.1 (by decide),
   (establish_dirs_idempotent ["app"] fsAll).2.2.2.2.2 (by decide)
     (by decide) (by decide)⟩

/-- C9 witness: the empty-string/absent agreement and the raised error
at a concrete configuration. -/
theorem empty_string_like_absent_witness :
    validate_config { cfgOf none none none with OPENAI_API_KEY := some "" } =
      validate_config { cfgOf none none none with OPENAI_API_KEY := none } ∧
    ∃ msg, (validate_config
        { cfgOf none none none with OPENAI_API_KEY := some "" }).result =
      Except.error msg ∧ mentions msg "OPENAI_API_KEY" = true :=
  ⟨(empty_string_like_absent (cfgOf none none none)).1,
   (empty_string_like_absent (cfgOf none none none)).2.2.2.1⟩
